import Mathlib

set_option maxRecDepth 2000

/-!
Verification of the Dify-HTML-VoiceAI voice-assistant frontend.

Shallow embedding of the JavaScript sources:
* `chat-stt-frontend copy/static/script.js` — continuous voice-activity
  detection (`startVoiceDetection` / `checkVoiceLevel`), the rolling
  `AudioBuffer`, `startRecording` / `stopRecording`, `processAudio`,
  `callSTTAPI` and `handleStreamResponse`;
* `chat-stt-frontend copy/static/tts_service.js` — `TTSService.speak`,
  `TTSService.stop` and the audio-playback pipeline;
* `unnamed/part_000` (an earlier generation of the frontend script) —
  `processAudio` with its size guard and retry loop, and its
  `handleStreamResponse` SSE line handling;
* `unnamed/part_004` (another generation) — its `handleStreamResponse`
  with interrupt checks.

Loudness values are embedded as rationals (only order comparisons are
performed on them), timestamps as naturals (milliseconds), buffer
timestamps as integers (JavaScript subtraction on epoch milliseconds).
-/

namespace VoiceAI

/-! ### Configuration (script.js, `initConfigSync`, lines 77-93) -/

/-- CONFIG.RECORDING_TIMEOUT (script.js line 79): maximal recording
duration in milliseconds before the recording timer force-stops. -/
def RECORDING_TIMEOUT : ℕ := 10000

/-- CONFIG.VOICE_DETECTION_THRESHOLD (script.js line 82): loudness
threshold for voice activity, 0.2 as an exact rational. -/
def VOICE_DETECTION_THRESHOLD : ℚ := 1 / 5

/-- CONFIG.QUESTION_DELAY (script.js line 83): sustained-silence span in
milliseconds after which an active recording is ended. -/
def QUESTION_DELAY : ℕ := 1000

/-- CONFIG.VOICE_DETECTION_INTERVAL (script.js line 84): polling interval
of the detection loop in milliseconds. -/
def VOICE_DETECTION_INTERVAL : ℕ := 1

/-- VOICE_CONFIRM_FRAMES (script.js line 673): consecutive voiced frames
required to confirm an utterance start. -/
def VOICE_CONFIRM_FRAMES : ℕ := 3

/-- SILENCE_CONFIRM_FRAMES (script.js line 674):
Math.ceil(QUESTION_DELAY / VOICE_DETECTION_INTERVAL), embedded as
ceiling division on naturals. -/
def SILENCE_CONFIRM_FRAMES : ℕ :=
  (QUESTION_DELAY + VOICE_DETECTION_INTERVAL - 1) / VOICE_DETECTION_INTERVAL

/-! ### Voice-activity detection (script.js `startVoiceDetection`, lines 668-775)

The detection loop is embedded as a step function on an explicit state.
The model covers the continuous-monitoring path with no TTS playback in
progress and no audio-processing in flight (`state.ttsService` silent,
`state.isProcessing` false), which is the regime the claims quantify
over; the interrupt branches of `checkVoiceLevel` (lines 686-695 and
711-721) are inactive in that regime because each is guarded by
`isProcessing || ttsService.isSpeaking()`. -/

/-- Why a recording ended: sustained silence (script.js line 747) or the
recording timer (script.js lines 837-842). -/
inductive EndReason
  | silence
  | timeout
deriving DecidableEq, Repr

/-- Observable events of the detection loop: utterance-start
(`startRecording`) and utterance-end (`stopRecording`), with the tick
time (ms) at which they fired. -/
inductive VadEvent
  | utteranceStart (t : ℕ)
  | utteranceEnd (t : ℕ) (r : EndReason)
deriving DecidableEq, Repr

/-- State of the detection loop: the two closure counters of
`startVoiceDetection`, the relevant fields of the global `state` object,
the pending recording-timer deadline (`state.recordingTimer`), and the
trace of emitted events. -/
structure VadState where
  consecutiveVoiceFrames : ℕ
  consecutiveSilenceFrames : ℕ
  isRecording : Bool
  isProcessing : Bool
  voiceStartTime : Option ℕ
  recordingDeadline : Option ℕ
  events : List VadEvent
deriving DecidableEq, Repr

/-- script.js `startRecording` (lines 816-851): guard on
`state.isRecording`, set `isRecording`, arm the recording timer at
now + RECORDING_TIMEOUT, signal utterance-start. -/
def startRecording (now : ℕ) (s : VadState) : VadState :=
  if s.isRecording then s
  else { s with
    isRecording := true
    recordingDeadline := some (now + RECORDING_TIMEOUT)
    events := s.events ++ [VadEvent.utteranceStart now] }

/-- script.js `stopRecording` (lines 856-888): guard on
`state.isRecording`, clear it, clear the recording timer and
`voiceStartTime`, signal utterance-end. -/
def stopRecording (now : ℕ) (r : EndReason) (s : VadState) : VadState :=
  if s.isRecording then
    { s with
      isRecording := false
      recordingDeadline := none
      voiceStartTime := none
      events := s.events ++ [VadEvent.utteranceEnd now r] }
  else s

/-- The recording timer armed by `startRecording` (script.js lines
837-842): once its deadline has passed and recording is still active it
calls `stopRecording`. Modelled as firing at the first detection tick
whose time has reached the deadline. -/
def recordingTimerTick (now : ℕ) (s : VadState) : VadState :=
  match s.recordingDeadline with
  | some d => if s.isRecording ∧ d ≤ now then stopRecording now EndReason.timeout s else s
  | none => s

/-- Voiced-branch counter update (script.js lines 700-701): increment
`consecutiveVoiceFrames`, reset `consecutiveSilenceFrames`. -/
def voiceCount (s : VadState) : VadState :=
  { s with
    consecutiveVoiceFrames := s.consecutiveVoiceFrames + 1
    consecutiveSilenceFrames := 0 }

/-- First-voiced-frame bookkeeping (script.js lines 704-708): on the
first consecutive voiced frame, record `voiceStartTime` when unset. -/
def markVoiceStart (now : ℕ) (s : VadState) : VadState :=
  if s.consecutiveVoiceFrames = 1 ∧ s.voiceStartTime = none
  then { s with voiceStartTime := some now } else s

/-- Confirmation check (script.js lines 725-733): once enough voiced
frames accumulated and neither recording nor processing, start
recording. -/
def maybeStartRecording (now : ℕ) (s : VadState) : VadState :=
  if VOICE_CONFIRM_FRAMES ≤ s.consecutiveVoiceFrames ∧
      s.isRecording = false ∧ s.isProcessing = false
  then startRecording now s else s

/-- Silent-branch counter update (script.js lines 738-739): increment
`consecutiveSilenceFrames`, reset `consecutiveVoiceFrames`. -/
def silenceCount (s : VadState) : VadState :=
  { s with
    consecutiveSilenceFrames := s.consecutiveSilenceFrames + 1
    consecutiveVoiceFrames := 0 }

/-- Silence bookkeeping (script.js lines 742-744): clear
`voiceStartTime` when set while not recording. -/
def clearVoiceStart (s : VadState) : VadState :=
  if ¬s.voiceStartTime = none ∧ s.isRecording = false
  then { s with voiceStartTime := none } else s

/-- Silence-confirmation check (script.js lines 747-751): while
recording, once enough silent frames accumulated, stop recording and
reset the silence count. -/
def maybeStopSilence (now : ℕ) (s : VadState) : VadState :=
  if s.isRecording = true ∧ SILENCE_CONFIRM_FRAMES ≤ s.consecutiveSilenceFrames
  then { stopRecording now EndReason.silence s with consecutiveSilenceFrames := 0 }
  else s

/-- One pass of the detection body `checkVoiceLevel`
(script.js lines 697-752) on the loudness sample `volume` at tick time
`now`: the voiced branch runs the counter update, the first-frame
bookkeeping and the confirmation check in the order of the code; the
silent branch runs its counter update, the bookkeeping and the
silence-confirmation check. -/
def checkVoiceLevel (now : ℕ) (volume : ℚ) (s : VadState) : VadState :=
  if VOICE_DETECTION_THRESHOLD < volume then
    maybeStartRecording now (markVoiceStart now (voiceCount s))
  else
    maybeStopSilence now (clearVoiceStart (silenceCount s))

/-- One detection tick: the recording timer (when due) fires before the
detection body processes the sample. -/
def vadStep (s : VadState) (inp : ℕ × ℚ) : VadState :=
  checkVoiceLevel inp.1 inp.2 (recordingTimerTick inp.1 s)

/-- Run the detection loop over a list of (tick time, loudness) samples. -/
def vadRun (s : VadState) (l : List (ℕ × ℚ)) : VadState :=
  l.foldl vadStep s

/-- The idle initial state: no counters, not recording, not processing. -/
def vadInit : VadState :=
  { consecutiveVoiceFrames := 0
    consecutiveSilenceFrames := 0
    isRecording := false
    isProcessing := false
    voiceStartTime := none
    recordingDeadline := none
    events := [] }

/-- Ticks every VOICE_DETECTION_INTERVAL ms starting at `t0`, paired
with the given loudness samples. -/
def ticksFrom : ℕ → List ℚ → List (ℕ × ℚ)
  | _, [] => []
  | t, v :: vs => (t, v) :: ticksFrom (t + VOICE_DETECTION_INTERVAL) vs

/-- Whether an event is an utterance-start. -/
def isStartEvent : VadEvent → Bool
  | VadEvent.utteranceStart _ => true
  | _ => false

/-- Whether an event is an utterance-end. -/
def isEndEvent : VadEvent → Bool
  | VadEvent.utteranceEnd _ _ => true
  | _ => false

/-- Whether an utterance-start has been signalled. -/
def VadState.hasStart (s : VadState) : Bool :=
  s.events.any isStartEvent

/-- The utterance-end events of the trace. -/
def VadState.endEvents (s : VadState) : List VadEvent :=
  s.events.filter isEndEvent

/-- Operational reading of the confirmation rule of `checkVoiceLevel`
with `c` voiced frames already accumulated: a sample above the threshold
advances the count (confirming at VOICE_CONFIRM_FRAMES), a sample at or
below it resets the count to zero. -/
def confirmsFrom (c : ℕ) : List ℚ → Bool
  | [] => false
  | v :: rest =>
    if VOICE_DETECTION_THRESHOLD < v then
      if VOICE_CONFIRM_FRAMES ≤ c + 1 then true else confirmsFrom (c + 1) rest
    else confirmsFrom 0 rest

/-- The specification wording of utterance-start: some
VOICE_CONFIRM_FRAMES consecutive samples all strictly above the
threshold, with no intervening sample at or below it (a contiguous
window of the sample list). -/
def specUtteranceStart (vols : List ℚ) : Prop :=
  ∃ mid, mid.length = VOICE_CONFIRM_FRAMES ∧
    (∀ v ∈ mid, VOICE_DETECTION_THRESHOLD < v) ∧ mid <:+: vols

/-- The state reached after three voiced ticks at times 0, 1, 2 from
idle: recording is active (started at tick 2). Used as the starting
point of the recording-phase scenarios. -/
def recState3 : VadState := vadRun vadInit [(0, 1), (1, 1), (2, 1)]

/-! ### Rolling audio buffer (script.js `AudioBuffer`, lines 104-211) -/

/-- One buffered audio chunk: the Float32Array payload is abstracted to
an identifier, the capture timestamp is an integer (Date.now()). -/
structure AudioChunk where
  data : ℕ
  timestamp : ℤ
deriving DecidableEq, Repr

/-- script.js `trimBuffer` (lines 158-161): keep exactly the entries
with `item.timestamp > now - bufferDuration`. -/
def trimBuffer (bufferDuration now : ℤ) (buffer : List AudioChunk) : List AudioChunk :=
  buffer.filter fun item => decide (now - bufferDuration < item.timestamp)

/-- Modelled from the specification wording of trim: drop exactly the
entries with `timestamp < now - bufferDurationMs`, i.e. retain the
entries with `timestamp ≥ now - bufferDurationMs`, ties at the cutoff
included. For comparison with `trimBuffer`. -/
def trimBufferSpec (bufferDuration now : ℤ) (buffer : List AudioChunk) : List AudioChunk :=
  buffer.filter fun item => decide (now - bufferDuration ≤ item.timestamp)

/-- script.js `getBufferedAudio` (lines 168-171): the entries with
`item.timestamp >= fromTimestamp`, in buffer order, as a fresh list. -/
def getBufferedAudio (buffer : List AudioChunk) (fromTimestamp : ℤ) : List AudioChunk :=
  buffer.filter fun item => decide (fromTimestamp ≤ item.timestamp)

/-! ### Chat stream handling

`handleStreamResponse` exists in two generations: the one in
`unnamed/part_004` (lines 906-1005), which checks the interrupt flags at
the top of the read loop and again inside the `workflow_finished`
handler before starting TTS, and the one in
`chat-stt-frontend copy/static/script.js` (lines 1069-1176), whose
`workflow_finished` handler force-resets the interrupt flags and always
plays TTS when the final answer is non-blank and a TTS service exists.

A stream is embedded as a list of (latch, event) pairs: `latch = true`
means the voice-detection loop latched an interrupt
(`shouldInterrupt` / `isInterrupted`) during the `reader.read()` await
that delivered this event, i.e. after the loop-top flag check of this
iteration and before the event is handled.

Texts are embedded as character lists, so that the JavaScript string
operations (`trim`, emptiness, `startsWith`, `slice`) are executable
list functions. -/

/-- JavaScript String.prototype.trim: strip whitespace from both ends. -/
def trimChars (s : List Char) : List Char :=
  ((s.dropWhile Char.isWhitespace).reverse.dropWhile Char.isWhitespace).reverse

/-- An SSE chat event after JSON parsing: `workflow_started` with its
conversation id, `message` with `complete_answer` (empty when the field
is absent, matching the JavaScript falsy check), and `workflow_finished`
with `final_answer` (empty when absent, in which case the accumulated
`completeAnswer` is used). -/
inductive StreamEvent
  | workflowStarted (convId : List Char)
  | message (completeAnswer : List Char)
  | workflowFinished (finalAnswer : List Char)
deriving DecidableEq, Repr

/-- State threaded through a stream handler run: the latched interrupt
flag, whether the read loop has exited (`break`), whether a message
element was created on `workflow_started`, the accumulated answer, the
conversation id, the texts passed to `ttsService.speak`, and whether
the listening status was restored. -/
structure StreamState where
  interrupted : Bool
  broken : Bool
  messageElement : Bool
  completeAnswer : List Char
  conversationId : List Char
  spoken : List (List Char)
  listening : Bool
deriving DecidableEq, Repr

/-- The initial handler state: no interrupt, empty answer, no message
element, nothing spoken. -/
def streamInit : StreamState :=
  { interrupted := false
    broken := false
    messageElement := false
    completeAnswer := []
    conversationId := []
    spoken := []
    listening := false }

/-- One iteration of the part_004 `handleStreamResponse` read loop
(part_004 lines 916-990): check the interrupt flags before the read
(lines 918-924, `break` when set); the read may deliver a latch; then
handle the event, where `workflow_finished` re-checks the flags (lines
947-950) and only calls `ttsService.speak` when they are clear and the
final answer is non-blank and a message element exists (line 958). -/
def part004Step (s : StreamState) (inp : Bool × StreamEvent) : StreamState :=
  if s.broken then s
  else if s.interrupted then { s with broken := true }
  else
    let s1 := if inp.1 then { s with interrupted := true } else s
    match inp.2 with
    | StreamEvent.workflowStarted cid =>
        { s1 with
          conversationId := if cid = [] then s1.conversationId else cid
          messageElement := true }
    | StreamEvent.message ans => { s1 with completeAnswer := ans }
    | StreamEvent.workflowFinished f =>
        if s1.interrupted then { s1 with broken := true }
        else
          let fin := if f = [] then s1.completeAnswer else f
          if s1.messageElement then
            if trimChars fin = [] then { s1 with listening := true }
            else { s1 with spoken := s1.spoken ++ [fin] }
          else s1

/-- Run the part_004 handler over a stream, then apply the caller
recovery of `processAudio` (part_004 lines 842-845): when the flags are
latched, `executeGlobalInterrupt` restores the listening status. -/
def part004Run (l : List (Bool × StreamEvent)) : StreamState :=
  let s := l.foldl part004Step streamInit
  if s.interrupted then { s with listening := true } else s

/-- One iteration of the copy-generation `handleStreamResponse` read
loop (script.js lines 1079-1161): the loop-top interrupt check only
logs and does not break (lines 1081-1084); `workflow_finished`
force-resets `isInterrupted` and `shouldInterrupt` and plays TTS
whenever the final answer is non-blank and a TTS service exists
(lines 1116-1131). -/
def copyStep (s : StreamState) (inp : Bool × StreamEvent) : StreamState :=
  let s1 := if inp.1 then { s with interrupted := true } else s
  match inp.2 with
  | StreamEvent.workflowStarted cid =>
      { s1 with
        conversationId := if cid = [] then s1.conversationId else cid
        messageElement := true }
  | StreamEvent.message ans => { s1 with completeAnswer := ans }
  | StreamEvent.workflowFinished f =>
      let fin := if f = [] then s1.completeAnswer else f
      if s1.messageElement then
        if trimChars fin = [] then { s1 with listening := true }
        else { s1 with interrupted := false, spoken := s1.spoken ++ [fin] }
      else s1

/-- Run the copy-generation handler over a stream. -/
def copyRun (l : List (Bool × StreamEvent)) : StreamState :=
  l.foldl copyStep streamInit

/-- An interrupt is latched at or before the first `workflow_finished`
item of the stream (the regime the interrupt claim quantifies over). -/
def latchBeforeFinish : List (Bool × StreamEvent) → Bool
  | [] => false
  | (b, ev) :: rest =>
    if b then true
    else match ev with
      | StreamEvent.workflowFinished _ => false
      | _ => latchBeforeFinish rest

/-- The concrete stream of the interrupt counterexample: the stream
starts, delivers the answer Hi, and the interrupt is latched during the
read that delivers `workflow_finished`. -/
def c1Input : List (Bool × StreamEvent) :=
  [(false, StreamEvent.workflowStarted ['c']),
   (false, StreamEvent.message ['H', 'i']),
   (true, StreamEvent.workflowFinished [])]

/-! ### SSE line parsing (part_000 `handleStreamResponse`, lines 596-658)

The part_000 handler splits each chunk into lines; a line is handled
only when it starts with `data: `; the payload is the rest of the line,
trimmed; an empty payload or the literal `[DONE]` is skipped with
`continue` (line 615); otherwise the payload is JSON-parsed (a parse
failure is caught and the loop continues) and dispatched on its
`event` field, where an `error` event breaks out of the line loop
(line 651). JSON parsing is a parameter `parse`; a parse failure is
`none`. -/

/-- Events dispatched by the part_000 handler, including its `error`
event. -/
inductive Evt000
  | workflowStarted (convId : List Char)
  | message (ans : List Char)
  | workflowFinished (ans : List Char)
  | errorEvent (msg : List Char)
deriving DecidableEq, Repr

/-- The characters of the SSE line marker. -/
def dataMarker : List Char := ['d', 'a', 't', 'a', ':', ' ']

/-- The characters of the literal terminator payload. -/
def doneMarker : List Char := ['[', 'D', 'O', 'N', 'E', ']']

/-- Handling of a single line by part_000 (lines 611-616): `none` means
the line is skipped (not a data line, blank payload, literal terminator
payload, or unparseable payload). -/
def processLine000 (parse : List Char → Option Evt000) (line : List Char) :
    Option Evt000 :=
  if dataMarker.isPrefixOf line then
    let jsonData := trimChars (line.drop 6)
    if jsonData = [] ∨ jsonData = doneMarker then none
    else parse jsonData
  else none

/-- The events the part_000 line loop dispatches, in order: skipped
lines contribute nothing, an `error` event is dispatched and then the
loop breaks (line 651). -/
def chunkEvents000 (parse : List Char → Option Evt000) : List (List Char) → List Evt000
  | [] => []
  | l :: rest =>
    match processLine000 parse l with
    | none => chunkEvents000 parse rest
    | some (Evt000.errorEvent m) => [Evt000.errorEvent m]
    | some ev => ev :: chunkEvents000 parse rest

/-- Whether a line dispatches an `error` event under `parse`. -/
def line000IsError (parse : List Char → Option Evt000) (l : List Char) : Bool :=
  match processLine000 parse l with
  | some (Evt000.errorEvent _) => true
  | _ => false

/-- Handling of a single line by the copy-generation handler
(script.js lines 1092-1096): no terminator or blank-payload check; the
payload (everything after the marker, untrimmed) goes straight to
JSON.parse, whose failure is caught and skipped. -/
def processLineCopy (parse : List Char → Option StreamEvent) (line : List Char) :
    Option StreamEvent :=
  if dataMarker.isPrefixOf line then parse (line.drop 6) else none

/-- The events the copy-generation line loop dispatches (its line loop
has no break). -/
def chunkEventsCopy (parse : List Char → Option StreamEvent) (lines : List (List Char)) :
    List StreamEvent :=
  lines.filterMap (processLineCopy parse)

/-- A concrete parser for the closed counterexample: the payload X
parses to a message event, everything else (including the terminator
and the empty payload) fails to parse. -/
def parse000X : List Char → Option Evt000 :=
  fun s => if s = ['X'] then some (Evt000.message ['h', 'i']) else none

/-! ### STT transcription calls

`callSTTAPI` in the copy generation (script.js lines 1013-1029) and in
part_004 (lines 856-872) is a single fetch of the audio form data with
no size check, no timeout and no retry. The part_000 generation instead
transcribes inside `processAudio` via `attemptTranscription` (part_000
lines 358-441): an empty blob and a blob over 25MB are rejected locally
before any network call; the fetch runs under a 30s abort timer; an
abort is rethrown as a timeout error without retry (lines 424-426); a
network failure whose message matches Failed to fetch / Network /
timeout is retried up to `maxRetries` times after a linearly growing
delay of 1000ms times the retry number (lines 428-437). The network is
a parameter mapping the attempt index to its outcome. -/

/-- Outcome of one fetch to the transcription endpoint. -/
inductive SttOutcome
  | success (text : List Char)
  | httpError (status : ℕ)
  | connectionFailure
  | timeoutAbort
deriving DecidableEq, Repr

/-- The distinct errors a transcription call can surface. -/
inductive SttError
  | emptyAudio
  | payloadTooLarge
  | httpFailed (status : ℕ)
  | sttTimeout
  | fetchFailed
deriving DecidableEq, Repr

/-- Result of a transcription call: how many network requests were made,
the waits (ms) inserted before retries, and the surfaced result. -/
structure SttResult where
  requests : ℕ
  delays : List ℕ
  result : Except SttError (List Char)
deriving Repr

/-- The copy/part_004 `callSTTAPI`: exactly one fetch regardless of the
blob size; a non-ok response or a network failure surfaces immediately;
on success the text (`result.text` with falsy fallback to empty) is
returned. -/
def callSTTAPI (blobSize : ℕ) (net : ℕ → SttOutcome) : SttResult :=
  match net 0 with
  | SttOutcome.success t => { requests := 1, delays := [], result := Except.ok t }
  | SttOutcome.httpError c =>
      { requests := 1, delays := [], result := Except.error (SttError.httpFailed c) }
  | SttOutcome.connectionFailure =>
      { requests := 1, delays := [], result := Except.error SttError.fetchFailed }
  | SttOutcome.timeoutAbort =>
      { requests := 1, delays := [], result := Except.error SttError.fetchFailed }

/-- Maximal audio payload accepted by part_000 (line 373): 25MB. -/
def MAX_AUDIO_BYTES : ℕ := 25 * 1024 * 1024

/-- maxRetries of part_000 `processAudio` (line 358). -/
def sttMaxRetries : ℕ := 3

/-- Result of one attempt of part_000 `attemptTranscription` in
isolation: the blob size guards fire before the fetch (lines 369-375,
zero requests), otherwise one fetch happens and its outcome surfaces
(the abort timeout is rethrown as the timeout error, lines 424-426). -/
def sttAttemptResult (blobSize : ℕ) (o : SttOutcome) : SttResult :=
  if blobSize = 0 then
    { requests := 0, delays := [], result := Except.error SttError.emptyAudio }
  else if MAX_AUDIO_BYTES < blobSize then
    { requests := 0, delays := [], result := Except.error SttError.payloadTooLarge }
  else
    match o with
    | SttOutcome.success t => { requests := 1, delays := [], result := Except.ok t }
    | SttOutcome.httpError c =>
        { requests := 1, delays := [], result := Except.error (SttError.httpFailed c) }
    | SttOutcome.timeoutAbort =>
        { requests := 1, delays := [], result := Except.error SttError.sttTimeout }
    | SttOutcome.connectionFailure =>
        { requests := 1, delays := [], result := Except.error SttError.fetchFailed }

/-- The retry filter of part_000 (lines 429-433): only an error whose
message matches the network-failure wording is retried; the guard
errors and the rethrown timeout never reach the filter, the http error
wording does not match it. -/
def sttRetryable (blobSize : ℕ) (o : SttOutcome) : Bool :=
  ¬blobSize = 0 ∧ ¬MAX_AUDIO_BYTES < blobSize ∧ o = SttOutcome.connectionFailure

/-- The retry loop of part_000 `attemptTranscription`: with `remaining`
retries left and `attempt` the 0-based attempt index, a retryable
failure waits 1000ms times the retry number and tries again; anything
else surfaces. -/
def attemptTranscriptionGo (blobSize : ℕ) (net : ℕ → SttOutcome) :
    ℕ → ℕ → SttResult
  | 0, attempt => sttAttemptResult blobSize (net attempt)
  | r + 1, attempt =>
    if sttRetryable blobSize (net attempt) then
      let rest := attemptTranscriptionGo blobSize net r (attempt + 1)
      { requests := 1 + rest.requests
        delays := 1000 * (attempt + 1) :: rest.delays
        result := rest.result }
    else sttAttemptResult blobSize (net attempt)

/-- part_000 `attemptTranscription` entered with retryCount 0. -/
def attemptTranscription (blobSize : ℕ) (net : ℕ → SttOutcome) : SttResult :=
  attemptTranscriptionGo blobSize net sttMaxRetries 0

/-! ### processAudio outcome (script.js lines 946-1006)

The coordinator path after a successful STT response, in the
non-interrupted regime: a blank transcript shows no user message, makes
no chat request and falls back to the listening status; a non-blank
transcript shows the user message and issues the chat request (the chat
and TTS pipeline continues in `callChatAPI`, out of scope here). The
final status follows the timers of lines 979-983 and 999-1003: the 2s
timer restores listening when `state.isListening`, otherwise the 1s
timer of the finally block restores it when continuous monitoring is
on. -/

/-- The UI status classes `updateStatus` can leave behind. -/
inductive UiStatus
  | listening
  | ready
  | chatting
deriving DecidableEq, Repr

/-- Observable outcome of one `processAudio` run. -/
structure ProcessOutcome where
  userMessageShown : Bool
  chatRequested : Bool
  errorShown : Bool
  finalStatus : UiStatus
deriving DecidableEq, Repr

/-- script.js `processAudio` decision logic on the transcript returned
by `callSTTAPI` (which yields `result.text` with falsy fallback to
empty), with the interrupt flags clear. -/
def processAudio (sttText : List Char) (isListening continuousMonitoring : Bool) :
    ProcessOutcome :=
  if trimChars sttText = [] then
    { userMessageShown := false
      chatRequested := false
      errorShown := false
      finalStatus :=
        if isListening then UiStatus.listening
        else if continuousMonitoring then UiStatus.listening
        else UiStatus.ready }
  else
    { userMessageShown := true
      chatRequested := true
      errorShown := false
      finalStatus := UiStatus.chatting }

/-! ### TTSService (tts_service.js)

Two aspects are embedded. First the entry guards of `speak`
(lines 90-109): disabled service, then blank text, then missing API
token, each returning or throwing before any callback, teardown or
network access. Second the playback pipeline as an interleaving model:
each `speak` call contributes the atomic steps stop (line 120, which
pauses and releases `state.currentAudio` and clears `isSpeaking`,
lines 177-185), the asynchronous TTS fetch (line 123, no state change),
and the playback start of `_playAudio` (lines 426-430, which records
the new Audio element in `currentAudio`, sets `isSpeaking` and starts
it playing). Two concurrent `speak` calls execute some interleaving of
their step sequences; the `playing` list tracks the Audio elements
currently audible. -/

/-- State relevant to the `speak` entry guards. -/
structure TTSEntryState where
  enabled : Bool
  apiToken : List Char
  isSpeaking : Bool
  isProcessing : Bool
deriving DecidableEq, Repr

/-- Effects the `speak` prologue can produce before the audio pipeline. -/
inductive SpeakAction
  | onStartCb
  | stopCall
  | apiRequest
deriving DecidableEq, Repr

/-- How the `speak` prologue exits. -/
inductive SpeakExit
  | returnedDisabled
  | returnedEmptyText
  | threwNoToken
  | proceeded
deriving DecidableEq, Repr

/-- tts_service.js `speak` entry (lines 90-123): return when disabled;
return when the text is null or blank (before any callback, stop or
request); throw when no API token; otherwise set `isProcessing`, fire
`onStart`, stop the current playback and issue the TTS API request. -/
def speakEntry (s : TTSEntryState) (text : Option (List Char)) :
    SpeakExit × List SpeakAction × TTSEntryState :=
  if s.enabled = false then (SpeakExit.returnedDisabled, [], s)
  else
    match text with
    | none => (SpeakExit.returnedEmptyText, [], s)
    | some t =>
      if trimChars t = [] then (SpeakExit.returnedEmptyText, [], s)
      else if s.apiToken = [] then (SpeakExit.threwNoToken, [], s)
      else (SpeakExit.proceeded,
        [SpeakAction.onStartCb, SpeakAction.stopCall, SpeakAction.apiRequest],
        { s with isProcessing := true, isSpeaking := false })

/-- Atomic steps of the `speak` playback pipeline. -/
inductive SpeakStep
  | stopStep
  | fetchStep
  | playStep (id : ℕ)
deriving DecidableEq, Repr

/-- Playback-side state of the service: the tracked `currentAudio`
element, the `isSpeaking` flag, and the Audio elements currently
audibly playing (an element keeps playing until something pauses it). -/
structure TTSPlayState where
  currentAudio : Option ℕ
  isSpeaking : Bool
  playing : List ℕ
deriving DecidableEq, Repr

/-- Semantics of one pipeline step: `stop` (tts_service.js 177-185)
pauses the tracked element only and clears the tracking fields; the
fetch changes nothing; `play` (426-430) tracks and starts the new
element without touching any other playing element. -/
def ttsStep (s : TTSPlayState) : SpeakStep → TTSPlayState
  | SpeakStep.stopStep =>
    { currentAudio := none
      isSpeaking := false
      playing := match s.currentAudio with
        | some a => s.playing.filter fun x => x ≠ a
        | none => s.playing }
  | SpeakStep.fetchStep => s
  | SpeakStep.playStep i =>
    { currentAudio := some i, isSpeaking := true, playing := s.playing ++ [i] }

/-- Run a step trace. -/
def ttsRun (s : TTSPlayState) (l : List SpeakStep) : TTSPlayState :=
  l.foldl ttsStep s

/-- All intermediate states of a trace, the initial one included. -/
def ttsStates (s : TTSPlayState) : List SpeakStep → List TTSPlayState
  | [] => [s]
  | a :: rest => s :: ttsStates (ttsStep s a) rest

/-- The idle service: nothing tracked, nothing playing. -/
def ttsIdle : TTSPlayState :=
  { currentAudio := none, isSpeaking := false, playing := [] }

/-- The step sequence of one `speak` call that plays the Audio element
`i`: stop the current playback, fetch the audio, start playing. -/
def speakSteps (i : ℕ) : List SpeakStep :=
  [SpeakStep.stopStep, SpeakStep.fetchStep, SpeakStep.playStep i]

/-- All interleavings of two step sequences (each sequence keeps its
internal order), with a fuel argument for structural recursion; the
fuel is at least the total length whenever `mergesGo` is entered
through `merges`. -/
def mergesGo : ℕ → List SpeakStep → List SpeakStep → List (List SpeakStep)
  | _, [], ys => [ys]
  | _, x :: xs, [] => [x :: xs]
  | 0, x :: xs, y :: ys => [x :: xs ++ y :: ys]
  | fuel + 1, x :: xs, y :: ys =>
    (mergesGo fuel xs (y :: ys)).map (fun t => x :: t) ++
    (mergesGo fuel (x :: xs) ys).map (fun t => y :: t)

/-- All interleavings of two step sequences. -/
def merges (xs ys : List SpeakStep) : List (List SpeakStep) :=
  mergesGo (xs.length + ys.length) xs ys

/-- Every intermediate state of the trace has at most one audibly
playing element. -/
def atMostOnePlaying (l : List SpeakStep) : Bool :=
  (ttsStates ttsIdle l).all fun st => st.playing.length ≤ 1

/-- In the merged trace, the second stop call happens only after the
first playback has started: exactly one stop precedes the step that
starts playing element 1 (the first speak call always runs its own stop
before its own play). This is the regime where the second `speak` is
issued while the first is already playing. -/
def stopAfterFirstPlay (t : List SpeakStep) : Bool :=
  (t.takeWhile fun x => x ≠ SpeakStep.playStep 1).countP
    (fun x => x = SpeakStep.stopStep) = 1

/-- The racing interleaving: both speak calls run their stop while
neither playback exists yet (the second call arrives while the first is
still fetching), then both playbacks start. -/
def raceTrace : List SpeakStep :=
  [SpeakStep.stopStep, SpeakStep.fetchStep, SpeakStep.stopStep,
   SpeakStep.fetchStep, SpeakStep.playStep 1, SpeakStep.playStep 2]

/-! ## Theorems -/

/-- C6 counterexample: a chunk timestamped exactly at the cutoff
`now - bufferDuration` (7000 = 10000 - 3000) is dropped by the trim of
the code, while the specification wording retains it. -/
theorem C6_cutoff_counterexample :
    trimBuffer 3000 10000 [{ data := 0, timestamp := 7000 }] = [] ∧
    trimBufferSpec 3000 10000 [{ data := 0, timestamp := 7000 }] =
      [{ data := 0, timestamp := 7000 }] := by
  constructor <;> rfl

/-- C6 (amended): trim retains exactly the chunks strictly newer than
the cutoff (a chunk timestamped exactly at the cutoff is dropped), and
the buffered-audio query on a trimmed buffer returns exactly the
retained chunks at or after the requested timestamp, as a sublist of
the original buffer (temporal order preserved, nothing mutated), never
including a chunk at or beyond bufferDuration age. -/
theorem C6_trim_since_amended :
    ∀ (d now t : ℤ) (b : List AudioChunk),
      (∀ c : AudioChunk, c ∈ trimBuffer d now b ↔ c ∈ b ∧ now - d < c.timestamp) ∧
      (∀ c : AudioChunk,
        c ∈ getBufferedAudio (trimBuffer d now b) t ↔
          c ∈ b ∧ now - d < c.timestamp ∧ t ≤ c.timestamp) ∧
      (getBufferedAudio (trimBuffer d now b) t).Sublist b := by
  intro d now t b
  refine ⟨fun c => ?_, fun c => ?_, ?_⟩
  · simp [trimBuffer, List.mem_filter]
  · simp only [trimBuffer, getBufferedAudio, List.mem_filter, decide_eq_true_eq]
    tauto
  · exact (List.filter_sublist _).trans (List.filter_sublist _)

/-- C6 witness: the membership characterisation evaluated on a concrete
trimmed buffer. -/
theorem C6_witness :
    { data := 1, timestamp := 9000 } ∈
      getBufferedAudio (trimBuffer 3000 10000
        [{ data := 0, timestamp := 7000 }, { data := 1, timestamp := 9000 }]) 8000 :=
  ((C6_trim_since_amended 3000 10000 8000 _).2.1 _).mpr
    (by refine ⟨by simp, by norm_num, by norm_num⟩)

/-- C9: a blank transcription result is treated as no speech detected:
no user message, no chat request, no error, and the listening status is
restored. -/
theorem C9_blank_transcript_listening :
    ∀ (s : List Char) (cm : Bool), trimChars s = [] →
      processAudio s true cm =
        { userMessageShown := false, chatRequested := false,
          errorShown := false, finalStatus := UiStatus.listening } := by
  intro s cm h
  simp [processAudio, h]

/-- C9 witness: the whitespace-only transcript of two blanks. -/
theorem C9_witness :
    processAudio [' ', ' '] true false =
      { userMessageShown := false, chatRequested := false,
        errorShown := false, finalStatus := UiStatus.listening } :=
  C9_blank_transcript_listening [' ', ' '] false (by decide)

/-- C10: a speak call with null or blank text returns before any
callback, teardown or network action, leaving the service state
unchanged. -/
theorem C10_blank_speak_noop :
    ∀ (s : TTSEntryState) (t : List Char), trimChars t = [] →
      (speakEntry s (some t)).2 = ([], s) ∧ (speakEntry s none).2 = ([], s) := by
  intro s t h
  unfold speakEntry
  cases hs : s.enabled <;> simp [hs, h]

/-- C10 witness: a whitespace-only text on an enabled service. -/
theorem C10_witness :
    (speakEntry
      { enabled := true, apiToken := ['k'], isSpeaking := false, isProcessing := false }
      (some [' '])).2 =
    ([], { enabled := true, apiToken := ['k'], isSpeaking := false,
           isProcessing := false }) :=
  (C10_blank_speak_noop _ [' '] (by decide)).1

/-- C7 counterexample: the callSTTAPI of the cited frontend performs a
network request even for a clip over the 25MB limit, and surfaces a
transient network failure after a single attempt, with no retry and no
backoff wait. -/
theorem C7_no_guard_counterexample :
    (callSTTAPI (26 * 1024 * 1024) (fun _ => SttOutcome.connectionFailure)).requests = 1 ∧
    (callSTTAPI 1000 (fun _ => SttOutcome.connectionFailure)).requests = 1 ∧
    (callSTTAPI 1000 (fun _ => SttOutcome.connectionFailure)).delays = [] :=
  ⟨rfl, rfl, rfl⟩

/-- C7 (amended): the size guard and the retry loop live in the part_000
transcription path, not in callSTTAPI: a clip over 25MB fails locally
with the oversize error and zero network requests; a persistent
connection failure is retried up to 3 times with linearly growing
delays of 1s, 2s, 3s before surfacing; an abort timeout surfaces
immediately without retry. -/
theorem C7_transcription_amended :
    (∀ (n : ℕ) (net : ℕ → SttOutcome), MAX_AUDIO_BYTES < n →
      attemptTranscription n net =
        { requests := 0, delays := [], result := Except.error SttError.payloadTooLarge }) ∧
    (∀ (n : ℕ) (net : ℕ → SttOutcome), 0 < n → n ≤ MAX_AUDIO_BYTES →
      (∀ i, net i = SttOutcome.connectionFailure) →
      (attemptTranscription n net).requests = 1 + sttMaxRetries ∧
      (attemptTranscription n net).delays = [1000, 2000, 3000] ∧
      (attemptTranscription n net).result = Except.error SttError.fetchFailed) ∧
    (∀ (n : ℕ) (net : ℕ → SttOutcome), 0 < n → n ≤ MAX_AUDIO_BYTES →
      net 0 = SttOutcome.timeoutAbort →
      attemptTranscription n net =
        { requests := 1, delays := [], result := Except.error SttError.sttTimeout }) := by
  refine ⟨?_, ?_, ?_⟩
  · intro n net h
    have h0 : ¬n = 0 := by omega
    simp [attemptTranscription, sttMaxRetries, attemptTranscriptionGo,
      sttRetryable, sttAttemptResult, h0, h]
  · intro n net hpos hle hnet
    have h0 : ¬n = 0 := by omega
    have hm : ¬MAX_AUDIO_BYTES < n := by omega
    simp [attemptTranscription, sttMaxRetries, attemptTranscriptionGo,
      sttRetryable, sttAttemptResult, h0, hm, hnet 0, hnet 1, hnet 2, hnet 3]
  · intro n net hpos hle hnet
    have h0 : ¬n = 0 := by omega
    have hm : ¬MAX_AUDIO_BYTES < n := by omega
    simp [attemptTranscription, sttMaxRetries, attemptTranscriptionGo,
      sttRetryable, sttAttemptResult, h0, hm, hnet]

/-- C7 witness: the guard at one byte over the limit, and the three
linear retry delays on a dead connection. -/
theorem C7_witness :
    attemptTranscription (MAX_AUDIO_BYTES + 1) (fun _ => SttOutcome.success ['y']) =
      { requests := 0, delays := [], result := Except.error SttError.payloadTooLarge } ∧
    (attemptTranscription 5 (fun _ => SttOutcome.connectionFailure)).delays =
      [1000, 2000, 3000] :=
  ⟨C7_transcription_amended.1 _ _ (Nat.lt_succ_self _),
   (C7_transcription_amended.2.1 5 _ (by norm_num)
      (by norm_num [MAX_AUDIO_BYTES]) (fun _ => rfl)).2.1⟩

/-- C4 counterexample: when the second speak call arrives while the
first is still fetching, both stop calls run before either playback
exists, so nothing tears the first playback down and the trace ends
with both Audio elements audibly playing; the trace is a valid
interleaving of the two speak pipelines. -/
theorem C4_race_counterexample :
    raceTrace ∈ merges (speakSteps 1) (speakSteps 2) ∧
    atMostOnePlaying raceTrace = false ∧
    (ttsRun ttsIdle raceTrace).playing = [1, 2] := by decide

/-- C4 (amended): the single-playback teardown guarantee holds exactly
when the second speak call issues its stop after the first playback has
started: in every such interleaving of two speak pipelines at most one
Audio element is ever playing. -/
theorem C4_sequential_amended :
    ∀ t ∈ merges (speakSteps 1) (speakSteps 2),
      stopAfterFirstPlay t = true → atMostOnePlaying t = true := by decide

/-- C4 witness: the sequential interleaving where the second speak
stops the already-playing first element. -/
theorem C4_witness :
    atMostOnePlaying
      [SpeakStep.stopStep, SpeakStep.fetchStep, SpeakStep.playStep 1,
       SpeakStep.stopStep, SpeakStep.fetchStep, SpeakStep.playStep 2] = true :=
  C4_sequential_amended _ (by decide) (by decide)

/-! ### C8: SSE terminator lines -/

lemma processLine000_doneLine (parse : List Char → Option Evt000) :
    processLine000 parse (dataMarker ++ doneMarker) = none := by
  have h1 : dataMarker.isPrefixOf (dataMarker ++ doneMarker) = true := by decide
  have h2 : trimChars ((dataMarker ++ doneMarker).drop 6) = doneMarker := by decide
  simp [processLine000, h1, h2]

lemma processLine000_blankLine (parse : List Char → Option Evt000) :
    processLine000 parse dataMarker = none := by
  have h1 : dataMarker.isPrefixOf dataMarker = true := by decide
  have h2 : trimChars (dataMarker.drop 6) = [] := by decide
  simp [processLine000, h1, h2]

lemma chunkEvents000_append (parse : List Char → Option Evt000) :
    ∀ pre post, (∀ l ∈ pre, line000IsError parse l = false) →
      chunkEvents000 parse (pre ++ post) =
        chunkEvents000 parse pre ++ chunkEvents000 parse post := by
  intro pre
  induction pre with
  | nil => intro post _; simp [chunkEvents000]
  | cons l rest ih =>
    intro post h
    have hl := h l (by simp)
    have hrest : ∀ x ∈ rest, line000IsError parse x = false :=
      fun x hx => h x (by simp [hx])
    cases hp : processLine000 parse l with
    | none => simp [chunkEvents000, hp, ih post hrest]
    | some ev =>
      cases ev with
      | errorEvent m => simp [line000IsError, hp] at hl
      | workflowStarted c => simp [chunkEvents000, hp, ih post hrest]
      | message a => simp [chunkEvents000, hp, ih post hrest]
      | workflowFinished a => simp [chunkEvents000, hp, ih post hrest]

/-- C8 counterexample: a chunk whose first line is the literal
terminator line and whose second line is a blank data line does not
terminate parsing: the third line is still parsed and dispatched. -/
theorem C8_done_counterexample :
    chunkEvents000 parse000X
      [dataMarker ++ doneMarker, dataMarker, dataMarker ++ ['X']] =
      [Evt000.message ['h', 'i']] := by decide

/-- C8 (amended): a literal terminator line and a blank-payload line
are skipped, not terminal: the events of the remaining lines are
dispatched exactly as if the skipped lines were absent — in the
part_000 handler (for chunks whose earlier lines dispatch no error
event, which would break the line loop), and likewise in the
copy-generation handler, where those payloads fail JSON parsing and
are skipped by the per-line catch. -/
theorem C8_done_skip_amended :
    (∀ (parse : List Char → Option Evt000) (pre post : List (List Char)),
      (∀ l ∈ pre, line000IsError parse l = false) →
      chunkEvents000 parse (pre ++ (dataMarker ++ doneMarker) :: dataMarker :: post) =
        chunkEvents000 parse pre ++ chunkEvents000 parse post) ∧
    (∀ (parse : List Char → Option StreamEvent) (pre post : List (List Char)),
      parse doneMarker = none → parse [] = none →
      chunkEventsCopy parse (pre ++ (dataMarker ++ doneMarker) :: dataMarker :: post) =
        chunkEventsCopy parse pre ++ chunkEventsCopy parse post) := by
  constructor
  · intro parse pre post h
    have tail : chunkEvents000 parse ((dataMarker ++ doneMarker) :: dataMarker :: post) =
        chunkEvents000 parse post := by
      simp [chunkEvents000, processLine000_doneLine, processLine000_blankLine]
    rw [chunkEvents000_append parse pre _ h, tail]
  · intro parse pre post hd hb
    have hdrop : (dataMarker ++ doneMarker).drop 6 = doneMarker := by decide
    have hpre1 : dataMarker.isPrefixOf (dataMarker ++ doneMarker) = true := by decide
    have hpre2 : dataMarker.isPrefixOf dataMarker = true := by decide
    have h1 : processLineCopy parse (dataMarker ++ doneMarker) = none := by
      simp [processLineCopy, hpre1, hdrop, hd]
    have h2 : processLineCopy parse dataMarker = none := by
      have : dataMarker.drop 6 = [] := by decide
      simp [processLineCopy, hpre2, this, hb]
    simp [chunkEventsCopy, List.filterMap_append, List.filterMap_cons, h1, h2]

/-- C8 witness: skipping evaluated on a concrete chunk with an empty
prefix. -/
theorem C8_witness :
    chunkEvents000 parse000X
      ((dataMarker ++ doneMarker) :: dataMarker :: [dataMarker ++ ['X']]) =
      chunkEvents000 parse000X [dataMarker ++ ['X']] := by
  simpa using C8_done_skip_amended.1 parse000X [] [dataMarker ++ ['X']] (by simp)

/-! ### C1: interrupts and the final answer -/

lemma part004_foldl_broken :
    ∀ (l : List (Bool × StreamEvent)) (s : StreamState), s.broken = true →
      l.foldl part004Step s = s := by
  intro l
  induction l with
  | nil => intro s _; rfl
  | cons x rest ih =>
    intro s h
    have hs : part004Step s x = s := by simp [part004Step, h]
    rw [List.foldl_cons, hs]
    exact ih s h

lemma part004_foldl_interrupted :
    ∀ (l : List (Bool × StreamEvent)) (s : StreamState), s.interrupted = true →
      (l.foldl part004Step s).spoken = s.spoken ∧
      (l.foldl part004Step s).interrupted = true := by
  intro l
  induction l with
  | nil => intro s h; exact ⟨rfl, h⟩
  | cons x rest ih =>
    intro s h
    by_cases hb : s.broken = true
    · have hs : part004Step s x = s := by simp [part004Step, hb]
      rw [List.foldl_cons, hs]
      exact ih s h
    · have hb' : s.broken = false := by simpa using hb
      have hs : part004Step s x = { s with broken := true } := by
        simp [part004Step, hb', h]
      rw [List.foldl_cons, hs, part004_foldl_broken rest _ rfl]
      exact ⟨rfl, h⟩

lemma part004Step_latch_fields (s : StreamState) (ev : StreamEvent)
    (hb : s.broken = false) (hi : s.interrupted = false) :
    (part004Step s (true, ev)).interrupted = true ∧
    (part004Step s (true, ev)).spoken = s.spoken := by
  cases ev with
  | workflowStarted cid =>
    by_cases hc : cid = [] <;> simp [part004Step, hb, hi, hc]
  | message a => simp [part004Step, hb, hi]
  | workflowFinished f => simp [part004Step, hb, hi]

lemma part004_foldl_latch :
    ∀ (l : List (Bool × StreamEvent)) (s : StreamState), s.broken = false →
      s.interrupted = false → latchBeforeFinish l = true →
      (l.foldl part004Step s).spoken = s.spoken ∧
      (l.foldl part004Step s).interrupted = true := by
  intro l
  induction l with
  | nil => intro s _ _ hl; simp [latchBeforeFinish] at hl
  | cons x rest ih =>
    intro s hb hi hl
    obtain ⟨b, ev⟩ := x
    cases b with
    | true =>
      have hf := part004Step_latch_fields s ev hb hi
      rw [List.foldl_cons]
      have h2 := part004_foldl_interrupted rest _ hf.1
      exact ⟨h2.1.trans hf.2, h2.2⟩
    | false =>
      cases ev with
      | workflowFinished f => simp [latchBeforeFinish] at hl
      | workflowStarted cid =>
        have hrest : latchBeforeFinish rest = true := by
          simpa [latchBeforeFinish] using hl
        have hs : part004Step s (false, StreamEvent.workflowStarted cid) =
            { s with
              conversationId := if cid = [] then s.conversationId else cid
              messageElement := true } := by
          simp [part004Step, hb, hi]
        rw [List.foldl_cons, hs]
        exact ih _ hb hi hrest
      | message a =>
        have hrest : latchBeforeFinish rest = true := by
          simpa [latchBeforeFinish] using hl
        have hs : part004Step s (false, StreamEvent.message a) =
            { s with completeAnswer := a } := by
          simp [part004Step, hb, hi]
        rw [List.foldl_cons, hs]
        exact ih _ hb hi hrest

/-- C1 counterexample: in the copy-generation handler, with the
interrupt latched during the read that delivers the final-answer event
(so before that event is processed), TTS playback is still started with
the accumulated answer, and the latched flags are force-reset. -/
theorem C1_forced_tts_counterexample :
    latchBeforeFinish c1Input = true ∧
    (copyRun c1Input).spoken = [['H', 'i']] ∧
    (copyRun c1Input).interrupted = false := by decide

/-- C1 (amended): the interrupt-skip behaviour holds for the part_004
generation of handleStreamResponse: whenever an interrupt is latched at
or before the final-answer event, no TTS playback is started and the
caller recovery returns the system to listening; without an interrupt,
the final answer (here delivered through the message event) is spoken.
The copy generation instead force-resets the flags and always plays a
non-blank final answer. -/
theorem C1_interrupt_amended :
    (∀ l : List (Bool × StreamEvent), latchBeforeFinish l = true →
      (part004Run l).spoken = [] ∧ (part004Run l).listening = true) ∧
    (∀ a : List Char, trimChars a ≠ [] →
      (part004Run [(false, StreamEvent.workflowStarted ['c']),
                   (false, StreamEvent.message a),
                   (false, StreamEvent.workflowFinished [])]).spoken = [a]) := by
  constructor
  · intro l hl
    have h := part004_foldl_latch l streamInit rfl rfl hl
    unfold part004Run
    simp only [h.2, if_true]
    exact ⟨h.1, trivial⟩
  · intro a ha
    simp [part004Run, part004Step, streamInit, ha]

/-- C1 witness: a latched stream produces no speech; a latch-free
stream speaks its answer. -/
theorem C1_witness :
    (part004Run [(true, StreamEvent.workflowFinished [])]).spoken = [] ∧
    (part004Run [(false, StreamEvent.workflowStarted ['c']),
                 (false, StreamEvent.message ['H', 'i']),
                 (false, StreamEvent.workflowFinished [])]).spoken = [['H', 'i']] :=
  ⟨(C1_interrupt_amended.1 _ (by decide)).1,
   C1_interrupt_amended.2 ['H', 'i'] (by decide)⟩

/-! ### VAD helper lemmas -/

lemma startRecording_events_grow (now : ℕ) (s : VadState) :
    s.events <+: (startRecording now s).events := by
  unfold startRecording
  split_ifs <;> simp

lemma stopRecording_events_grow (now : ℕ) (r : EndReason) (s : VadState) :
    s.events <+: (stopRecording now r s).events := by
  unfold stopRecording
  split_ifs <;> simp

lemma recordingTimerTick_events_grow (now : ℕ) (s : VadState) :
    s.events <+: (recordingTimerTick now s).events := by
  cases hd : s.recordingDeadline with
  | none => simp [recordingTimerTick, hd]
  | some d =>
    simp only [recordingTimerTick, hd]
    split_ifs with h
    · exact stopRecording_events_grow now EndReason.timeout s
    · exact List.prefix_rfl

lemma markVoiceStart_events (now : ℕ) (s : VadState) :
    (markVoiceStart now s).events = s.events := by
  unfold markVoiceStart
  split_ifs <;> rfl

lemma clearVoiceStart_events (s : VadState) :
    (clearVoiceStart s).events = s.events := by
  unfold clearVoiceStart
  split_ifs <;> rfl

lemma maybeStartRecording_events_grow (now : ℕ) (s : VadState) :
    s.events <+: (maybeStartRecording now s).events := by
  unfold maybeStartRecording
  split_ifs with h
  · exact startRecording_events_grow now s
  · exact List.prefix_rfl

lemma maybeStopSilence_events_grow (now : ℕ) (s : VadState) :
    s.events <+: (maybeStopSilence now s).events := by
  unfold maybeStopSilence
  split_ifs with h
  · exact stopRecording_events_grow now EndReason.silence s
  · exact List.prefix_rfl

lemma checkVoiceLevel_events_grow (now : ℕ) (v : ℚ) (s : VadState) :
    s.events <+: (checkVoiceLevel now v s).events := by
  unfold checkVoiceLevel
  split_ifs with hv
  · have h1 : (markVoiceStart now (voiceCount s)).events = s.events := by
      rw [markVoiceStart_events]; rfl
    rw [← h1]
    exact maybeStartRecording_events_grow now _
  · have h1 : (clearVoiceStart (silenceCount s)).events = s.events := by
      rw [clearVoiceStart_events]; rfl
    rw [← h1]
    exact maybeStopSilence_events_grow now _

lemma vadStep_events_grow (s : VadState) (inp : ℕ × ℚ) :
    s.events <+: (vadStep s inp).events :=
  (recordingTimerTick_events_grow inp.1 s).trans
    (checkVoiceLevel_events_grow inp.1 inp.2 _)

lemma hasStart_of_grow {s t : VadState} (hp : s.events <+: t.events)
    (h : s.hasStart = true) : t.hasStart = true := by
  obtain ⟨r, hr⟩ := hp
  unfold VadState.hasStart at h ⊢
  rw [← hr, List.any_append, h, Bool.true_or]

lemma vadRun_hasStart_mono :
    ∀ (l : List (ℕ × ℚ)) (s : VadState), s.hasStart = true →
      (vadRun s l).hasStart = true := by
  intro l
  induction l with
  | nil => intro s h; exact h
  | cons x rest ih =>
    intro s h
    rw [vadRun, List.foldl_cons]
    exact ih _ (hasStart_of_grow (vadStep_events_grow s x) h)

lemma recordingTimerTick_not_recording (now : ℕ) (s : VadState)
    (h : s.isRecording = false) : recordingTimerTick now s = s := by
  cases hd : s.recordingDeadline with
  | none => simp [recordingTimerTick, hd]
  | some d => simp [recordingTimerTick, hd, h]

lemma recordingTimerTick_early (now : ℕ) (s : VadState) (d : ℕ)
    (hd : s.recordingDeadline = some d) (h : now < d) :
    recordingTimerTick now s = s := by
  simp [recordingTimerTick, hd, Nat.not_le.mpr h]

lemma vadStep_voice_start (s : VadState) (t : ℕ) (v : ℚ)
    (hv : VOICE_DETECTION_THRESHOLD < v) (hrec : s.isRecording = false)
    (hproc : s.isProcessing = false)
    (h3 : VOICE_CONFIRM_FRAMES ≤ s.consecutiveVoiceFrames + 1) :
    (vadStep s (t, v)).hasStart = true := by
  unfold vadStep
  rw [recordingTimerTick_not_recording t s hrec]
  unfold checkVoiceLevel
  rw [if_pos hv]
  unfold maybeStartRecording markVoiceStart voiceCount startRecording
  split_ifs <;> simp_all [VadState.hasStart, isStartEvent]
  all_goals (exfalso; omega)

lemma vadStep_voice_idle_fields (s : VadState) (t : ℕ) (v : ℚ)
    (hv : VOICE_DETECTION_THRESHOLD < v) (hrec : s.isRecording = false)
    (hproc : s.isProcessing = false)
    (hlt : s.consecutiveVoiceFrames + 1 < VOICE_CONFIRM_FRAMES) :
    (vadStep s (t, v)).consecutiveVoiceFrames = s.consecutiveVoiceFrames + 1 ∧
    (vadStep s (t, v)).isRecording = false ∧
    (vadStep s (t, v)).isProcessing = false ∧
    (vadStep s (t, v)).events = s.events := by
  unfold vadStep
  rw [recordingTimerTick_not_recording t s hrec]
  unfold checkVoiceLevel
  rw [if_pos hv]
  unfold maybeStartRecording markVoiceStart voiceCount
  have h3 : ¬VOICE_CONFIRM_FRAMES ≤ s.consecutiveVoiceFrames + 1 := by omega
  split_ifs <;> simp_all

lemma vadStep_silence_idle_fields (s : VadState) (t : ℕ) (v : ℚ)
    (hv : ¬VOICE_DETECTION_THRESHOLD < v) (hrec : s.isRecording = false) :
    (vadStep s (t, v)).consecutiveVoiceFrames = 0 ∧
    (vadStep s (t, v)).voiceStartTime = none ∧
    (vadStep s (t, v)).isRecording = false ∧
    (vadStep s (t, v)).isProcessing = s.isProcessing ∧
    (vadStep s (t, v)).events = s.events := by
  unfold vadStep
  rw [recordingTimerTick_not_recording t s hrec]
  unfold checkVoiceLevel
  rw [if_neg hv]
  unfold maybeStopSilence clearVoiceStart silenceCount
  split_ifs <;> simp_all

lemma vadRun_nil (s : VadState) : vadRun s [] = s := rfl

lemma vadRun_cons (s : VadState) (x : ℕ × ℚ) (rest : List (ℕ × ℚ)) :
    vadRun s (x :: rest) = vadRun (vadStep s x) rest := rfl

lemma vadRun_append (s : VadState) (a b : List (ℕ × ℚ)) :
    vadRun s (a ++ b) = vadRun (vadRun s a) b := by
  simp [vadRun]

/-! ### C2: utterance-start confirmation -/

lemma vadRun_hasStart_iff :
    ∀ (l : List (ℕ × ℚ)) (s : VadState),
      s.isProcessing = false → s.hasStart = false → s.isRecording = false →
      ((vadRun s l).hasStart = true ↔
        confirmsFrom s.consecutiveVoiceFrames (l.map Prod.snd) = true) := by
  intro l
  induction l with
  | nil =>
    intro s _ hst _
    simp [vadRun_nil, confirmsFrom, hst]
  | cons x rest ih =>
    intro s hproc hst hrec
    obtain ⟨t, v⟩ := x
    rw [vadRun_cons, List.map_cons]
    by_cases hv : VOICE_DETECTION_THRESHOLD < v
    · by_cases h3 : VOICE_CONFIRM_FRAMES ≤ s.consecutiveVoiceFrames + 1
      · have hstart := vadStep_voice_start s t v hv hrec hproc h3
        have hrun := vadRun_hasStart_mono rest _ hstart
        rw [confirmsFrom]
        simp [hv, h3, hrun]
      · have hf := vadStep_voice_idle_fields s t v hv hrec hproc (by omega)
        have hst' : (vadStep s (t, v)).hasStart = false := by
          unfold VadState.hasStart at hst ⊢
          rw [hf.2.2.2]
          exact hst
        have hiff := ih (vadStep s (t, v)) hf.2.2.1 hst' hf.2.1
        rw [hf.1] at hiff
        rw [confirmsFrom]
        simp only [hv, if_true, h3, if_false]
        exact hiff
    · have hf := vadStep_silence_idle_fields s t v hv hrec
      have hst' : (vadStep s (t, v)).hasStart = false := by
        unfold VadState.hasStart at hst ⊢
        rw [hf.2.2.2.2]
        exact hst
      have hproc' : (vadStep s (t, v)).isProcessing = false := by
        rw [hf.2.2.2.1]
        exact hproc
      have hiff := ih (vadStep s (t, v)) hproc' hst' hf.2.2.1
      rw [hf.1] at hiff
      rw [confirmsFrom]
      simp only [hv, if_false]
      exact hiff

lemma specUtteranceStart_of_voice_run {l p : List ℚ} (hp : p <+: l)
    (hvoice : ∀ v ∈ p, VOICE_DETECTION_THRESHOLD < v)
    (hlen : VOICE_CONFIRM_FRAMES ≤ p.length) : specUtteranceStart l := by
  refine ⟨p.take VOICE_CONFIRM_FRAMES, ?_, ?_, ?_⟩
  · rw [List.length_take]
    omega
  · intro v hv
    exact hvoice v (List.take_subset _ _ hv)
  · exact (( List.take_prefix _ _).trans hp).isInfix

lemma specUtteranceStart_cons_of_silence {l : List ℚ} {v : ℚ}
    (hv : ¬VOICE_DETECTION_THRESHOLD < v) :
    specUtteranceStart (v :: l) ↔ specUtteranceStart l := by
  constructor
  · rintro ⟨mid, hlen, hvoice, hinf⟩
    rcases List.infix_cons_iff.mp hinf with hpre | hinf'
    · exfalso
      cases mid with
      | nil => simp [VOICE_CONFIRM_FRAMES] at hlen
      | cons m ms =>
        have := List.cons_prefix_cons.mp hpre
        exact hv (this.1 ▸ hvoice m (by simp))
    · exact ⟨mid, hlen, hvoice, hinf'⟩
  · rintro ⟨mid, hlen, hvoice, hinf⟩
    exact ⟨mid, hlen, hvoice, List.infix_cons hinf⟩

lemma confirmsFrom_iff :
    ∀ (l : List ℚ) (c : ℕ), c < VOICE_CONFIRM_FRAMES →
      (confirmsFrom c l = true ↔
        ((∃ p, p <+: l ∧ (∀ v ∈ p, VOICE_DETECTION_THRESHOLD < v) ∧
            VOICE_CONFIRM_FRAMES ≤ c + p.length) ∨
          specUtteranceStart l)) := by
  intro l
  induction l with
  | nil =>
    intro c hc
    rw [confirmsFrom]
    constructor
    · intro h
      simp at h
    · rintro (⟨p, hp, _, hlen⟩ | ⟨mid, hlen, _, hinf⟩)
      · exfalso
        rw [List.eq_nil_of_prefix_nil hp] at hlen
        simp at hlen
        omega
      · exfalso
        rw [List.eq_nil_of_infix_nil hinf] at hlen
        simp [VOICE_CONFIRM_FRAMES] at hlen
  | cons v l ih =>
    intro c hc
    rw [confirmsFrom]
    by_cases hv : VOICE_DETECTION_THRESHOLD < v
    · rw [if_pos hv]
      by_cases h3 : VOICE_CONFIRM_FRAMES ≤ c + 1
      · rw [if_pos h3]
        simp only [true_iff]
        left
        exact ⟨[v], ⟨l, rfl⟩, by simpa using hv, by simpa using h3⟩
      · rw [if_neg h3]
        rw [ih (c + 1) (by omega)]
        constructor
        · rintro (⟨p, hp, hvoice, hlen⟩ | hspec)
          · left
            refine ⟨v :: p, List.cons_prefix_cons.mpr ⟨rfl, hp⟩, ?_, ?_⟩
            · intro w hw
              rcases List.mem_cons.mp hw with rfl | hw'
              · exact hv
              · exact hvoice w hw'
            · simp only [List.length_cons]
              omega
          · right
            rcases hspec with ⟨mid, hlen, hvoice, hinf⟩
            exact ⟨mid, hlen, hvoice, List.infix_cons hinf⟩
        · rintro (⟨q, hq, hvoice, hlen⟩ | hspec)
          · cases q with
            | nil =>
              simp only [List.length_nil, Nat.add_zero] at hlen
              omega
            | cons w p =>
              have hcp := List.cons_prefix_cons.mp hq
              left
              refine ⟨p, hcp.2, fun x hx => hvoice x (by simp [hx]), ?_⟩
              simp only [List.length_cons] at hlen
              omega
          · rcases hspec with ⟨mid, hlen, hvoice, hinf⟩
            rcases List.infix_cons_iff.mp hinf with hpre | hinf'
            · cases mid with
              | nil => simp [VOICE_CONFIRM_FRAMES] at hlen
              | cons m ms =>
                have hcp := List.cons_prefix_cons.mp hpre
                left
                refine ⟨ms, hcp.2, fun x hx => hvoice x (by simp [hx]), ?_⟩
                simp only [List.length_cons] at hlen
                omega
            · right
              exact ⟨mid, hlen, hvoice, hinf'⟩
    · rw [if_neg hv]
      rw [ih 0 (by norm_num [VOICE_CONFIRM_FRAMES])]
      rw [specUtteranceStart_cons_of_silence hv]
      constructor
      · rintro (⟨p, hp, hvoice, hlen⟩ | hspec)
        · right
          exact specUtteranceStart_of_voice_run hp hvoice (by omega)
        · right
          exact hspec
      · rintro (⟨q, hq, hvoice, hlen⟩ | hspec)
        · cases q with
          | nil =>
            simp only [List.length_nil, Nat.add_zero] at hlen
            omega
          | cons w p =>
            exfalso
            have hcp := List.cons_prefix_cons.mp hq
            exact hv (hcp.1 ▸ hvoice w (by simp))
        · right
          exact hspec

lemma confirmsFrom_zero_iff_spec (l : List ℚ) :
    confirmsFrom 0 l = true ↔ specUtteranceStart l := by
  rw [confirmsFrom_iff l 0 (by norm_num [VOICE_CONFIRM_FRAMES])]
  constructor
  · rintro (⟨p, hp, hvoice, hlen⟩ | hspec)
    · exact specUtteranceStart_of_voice_run hp hvoice (by omega)
    · exact hspec
  · exact fun h => Or.inr h

/-- C2: fed from the idle state, the detection loop signals
utterance-start iff the sample sequence contains VOICE_CONFIRM_FRAMES
(three) consecutive samples strictly above the threshold with no
intervening sample at or below it; and, while not recording, any sample
at or below the threshold resets the consecutive-voice count to zero
and clears voiceStartTime. -/
theorem C2_utterance_start_iff :
    (∀ l : List (ℕ × ℚ),
      ((vadRun vadInit l).hasStart = true ↔ specUtteranceStart (l.map Prod.snd))) ∧
    (∀ (s : VadState) (now : ℕ) (v : ℚ), s.isRecording = false →
      v ≤ VOICE_DETECTION_THRESHOLD →
      (vadStep s (now, v)).consecutiveVoiceFrames = 0 ∧
      (vadStep s (now, v)).voiceStartTime = none) := by
  constructor
  · intro l
    rw [vadRun_hasStart_iff l vadInit rfl rfl rfl]
    exact confirmsFrom_zero_iff_spec _
  · intro s now v hrec hv
    have hf := vadStep_silence_idle_fields s now v (by exact not_lt.mpr hv) hrec
    exact ⟨hf.1, hf.2.1⟩

/-- C2 witness: three consecutive loud samples confirm a start; a quiet
sample resets the counters. -/
theorem C2_witness :
    (vadRun vadInit [(0, 1), (1, 1), (2, 1)]).hasStart = true ∧
    (vadStep vadInit (5, 0)).consecutiveVoiceFrames = 0 := by
  constructor
  · refine (C2_utterance_start_iff.1 _).mpr ⟨[1, 1, 1], rfl, ?_, ?_⟩
    · intro v hv
      rcases List.mem_cons.mp hv with rfl | hv'
      · norm_num [VOICE_DETECTION_THRESHOLD]
      rcases List.mem_cons.mp hv' with rfl | hv''
      · norm_num [VOICE_DETECTION_THRESHOLD]
      rcases List.mem_cons.mp hv'' with rfl | h
      · norm_num [VOICE_DETECTION_THRESHOLD]
      · cases h
    · show [1, 1, 1] <:+: [(1 : ℚ), 1, 1]
      exact List.infix_rfl
  · exact (C2_utterance_start_iff.2 vadInit 5 0 rfl (by norm_num [VOICE_DETECTION_THRESHOLD])).1

/-! ### C3 and C5: recording-phase scenarios -/

lemma SILENCE_CONFIRM_FRAMES_eq : SILENCE_CONFIRM_FRAMES = 1000 := by
  norm_num [SILENCE_CONFIRM_FRAMES, QUESTION_DELAY, VOICE_DETECTION_INTERVAL]

lemma ticksFrom_append (xs : List ℚ) :
    ∀ (ys : List ℚ) (t : ℕ),
      ticksFrom t (xs ++ ys) = ticksFrom t xs ++ ticksFrom (t + xs.length) ys := by
  induction xs with
  | nil => intro ys t; simp [ticksFrom]
  | cons x xs ih =>
    intro ys t
    simp only [List.cons_append, ticksFrom, List.length_cons, List.append_eq]
    rw [ih ys (t + VOICE_DETECTION_INTERVAL)]
    have harith : t + VOICE_DETECTION_INTERVAL + xs.length = t + (xs.length + 1) := by
      simp only [VOICE_DETECTION_INTERVAL]
      omega
    rw [harith]

lemma recState3_eq :
    recState3 =
      { consecutiveVoiceFrames := 3
        consecutiveSilenceFrames := 0
        isRecording := true
        isProcessing := false
        voiceStartTime := some 0
        recordingDeadline := some (2 + RECORDING_TIMEOUT)
        events := [VadEvent.utteranceStart 2] } := by
  have hv : VOICE_DETECTION_THRESHOLD < (1 : ℚ) := by
    norm_num [VOICE_DETECTION_THRESHOLD]
  norm_num [recState3, vadRun, vadStep, recordingTimerTick, checkVoiceLevel,
    voiceCount, markVoiceStart, maybeStartRecording, startRecording, vadInit,
    VOICE_CONFIRM_FRAMES, hv, List.foldl]

lemma vadStep_voice_recording (s : VadState) (t : ℕ) (v : ℚ) (d : ℕ)
    (hv : VOICE_DETECTION_THRESHOLD < v) (hrec : s.isRecording = true)
    (hd : s.recordingDeadline = some d) (ht : t < d)
    (hcv : 1 ≤ s.consecutiveVoiceFrames) :
    vadStep s (t, v) =
      { s with
        consecutiveVoiceFrames := s.consecutiveVoiceFrames + 1
        consecutiveSilenceFrames := 0 } := by
  unfold vadStep
  rw [recordingTimerTick_early t s d hd ht]
  have h1 : ¬s.consecutiveVoiceFrames + 1 = 1 := by omega
  simp [checkVoiceLevel, maybeStartRecording, markVoiceStart, voiceCount, hv, hrec, h1]

lemma vadRun_voice_recording :
    ∀ (vols : List ℚ) (t : ℕ) (s : VadState) (d : ℕ),
      (∀ v ∈ vols, VOICE_DETECTION_THRESHOLD < v) →
      s.isRecording = true → s.recordingDeadline = some d →
      s.consecutiveSilenceFrames = 0 → 1 ≤ s.consecutiveVoiceFrames →
      t + vols.length ≤ d →
      vadRun s (ticksFrom t vols) =
        { s with consecutiveVoiceFrames := s.consecutiveVoiceFrames + vols.length } := by
  intro vols
  induction vols with
  | nil =>
    intro t s d _ _ _ _ _ _
    simp [ticksFrom, vadRun_nil]
  | cons v vs ih =>
    intro t s d hall hrec hd hcs hcv hlen
    simp only [List.length_cons] at hlen
    rw [ticksFrom, vadRun_cons]
    rw [vadStep_voice_recording s t v d (hall v (by simp)) hrec hd (by omega) hcv]
    have hlen' : t + VOICE_DETECTION_INTERVAL + vs.length ≤ d := by
      simp only [VOICE_DETECTION_INTERVAL]
      omega
    have hres := ih (t + VOICE_DETECTION_INTERVAL)
      { s with
        consecutiveVoiceFrames := s.consecutiveVoiceFrames + 1
        consecutiveSilenceFrames := 0 }
      d (fun w hw => hall w (by simp [hw])) hrec hd rfl
      (show 1 ≤ s.consecutiveVoiceFrames + 1 by omega) hlen'
    rw [hres]
    cases s with
    | mk cv cs rec proc vst dl ev =>
      simp only [VadState.mk.injEq, List.length_cons]
      simp only at hcs
      exact ⟨by omega, hcs.symm, trivial, trivial, trivial, trivial, trivial⟩

lemma vadStep_voice_timeout (s : VadState) (t : ℕ) (v : ℚ) (d : ℕ)
    (hv : VOICE_DETECTION_THRESHOLD < v) (hrec : s.isRecording = true)
    (hproc : s.isProcessing = false)
    (hd : s.recordingDeadline = some d) (ht : d ≤ t)
    (hcv : 2 ≤ s.consecutiveVoiceFrames) :
    vadStep s (t, v) =
      { s with
        consecutiveVoiceFrames := s.consecutiveVoiceFrames + 1
        consecutiveSilenceFrames := 0
        voiceStartTime := none
        recordingDeadline := some (t + RECORDING_TIMEOUT)
        events := s.events ++ [VadEvent.utteranceEnd t EndReason.timeout,
          VadEvent.utteranceStart t] } := by
  unfold vadStep
  have htick : recordingTimerTick t s =
      { s with
        isRecording := false
        recordingDeadline := none
        voiceStartTime := none
        events := s.events ++ [VadEvent.utteranceEnd t EndReason.timeout] } := by
    simp [recordingTimerTick, hd, stopRecording, hrec, ht]
  rw [htick]
  have h1 : ¬s.consecutiveVoiceFrames + 1 = 1 := by omega
  have h3 : VOICE_CONFIRM_FRAMES ≤ s.consecutiveVoiceFrames + 1 := by
    simp only [VOICE_CONFIRM_FRAMES]
    omega
  simp [checkVoiceLevel, maybeStartRecording, markVoiceStart, voiceCount,
    startRecording, hv, h1, h3, hproc, hrec]

lemma vadStep_silence_recording (s : VadState) (t : ℕ) (v : ℚ) (d : ℕ)
    (hv : ¬VOICE_DETECTION_THRESHOLD < v) (hrec : s.isRecording = true)
    (hd : s.recordingDeadline = some d) (ht : t < d)
    (hcs : s.consecutiveSilenceFrames + 1 < SILENCE_CONFIRM_FRAMES) :
    vadStep s (t, v) =
      { s with
        consecutiveVoiceFrames := 0
        consecutiveSilenceFrames := s.consecutiveSilenceFrames + 1 } := by
  unfold vadStep
  rw [recordingTimerTick_early t s d hd ht]
  have h3 : ¬SILENCE_CONFIRM_FRAMES ≤ s.consecutiveSilenceFrames + 1 := by omega
  simp [checkVoiceLevel, maybeStopSilence, clearVoiceStart, silenceCount, hv, hrec, h3]

lemma vadStep_silence_fire (s : VadState) (t : ℕ) (v : ℚ) (d : ℕ)
    (hv : ¬VOICE_DETECTION_THRESHOLD < v) (hrec : s.isRecording = true)
    (hd : s.recordingDeadline = some d) (ht : t < d)
    (hcs : SILENCE_CONFIRM_FRAMES ≤ s.consecutiveSilenceFrames + 1) :
    vadStep s (t, v) =
      { s with
        consecutiveVoiceFrames := 0
        consecutiveSilenceFrames := 0
        isRecording := false
        voiceStartTime := none
        recordingDeadline := none
        events := s.events ++ [VadEvent.utteranceEnd t EndReason.silence] } := by
  unfold vadStep
  rw [recordingTimerTick_early t s d hd ht]
  simp [checkVoiceLevel, maybeStopSilence, clearVoiceStart, silenceCount,
    stopRecording, hv, hrec, hcs]

lemma vadRun_silence_recording :
    ∀ (vols : List ℚ) (t : ℕ) (s : VadState) (d : ℕ),
      (∀ v ∈ vols, ¬VOICE_DETECTION_THRESHOLD < v) →
      s.isRecording = true → s.recordingDeadline = some d →
      s.consecutiveVoiceFrames = 0 →
      t + vols.length ≤ d →
      s.consecutiveSilenceFrames + vols.length < SILENCE_CONFIRM_FRAMES →
      vadRun s (ticksFrom t vols) =
        { s with consecutiveSilenceFrames := s.consecutiveSilenceFrames + vols.length } := by
  intro vols
  induction vols with
  | nil =>
    intro t s d _ _ _ _ _ _
    simp [ticksFrom, vadRun_nil]
  | cons v vs ih =>
    intro t s d hall hrec hd hcv hlen hcs
    simp only [List.length_cons] at hlen hcs
    rw [ticksFrom, vadRun_cons]
    rw [vadStep_silence_recording s t v d (hall v (by simp)) hrec hd (by omega) (by omega)]
    have hlen' : t + VOICE_DETECTION_INTERVAL + vs.length ≤ d := by
      simp only [VOICE_DETECTION_INTERVAL]
      omega
    have hres := ih (t + VOICE_DETECTION_INTERVAL)
      { s with
        consecutiveVoiceFrames := 0
        consecutiveSilenceFrames := s.consecutiveSilenceFrames + 1 }
      d (fun w hw => hall w (by simp [hw])) hrec hd rfl hlen'
      (show s.consecutiveSilenceFrames + 1 + vs.length < SILENCE_CONFIRM_FRAMES by omega)
    rw [hres]
    cases s with
    | mk cv cs rec proc vst dl ev =>
      simp only [VadState.mk.injEq, List.length_cons]
      simp only at hcv
      exact ⟨hcv.symm, by omega, trivial, trivial, trivial, trivial, trivial⟩

lemma sustainedVoice_scenario :
    ∀ vols : List ℚ, (∀ v ∈ vols, VOICE_DETECTION_THRESHOLD < v) →
      (vols.length < RECORDING_TIMEOUT →
        (vadRun recState3 (ticksFrom 3 vols)).endEvents = [] ∧
        (vadRun recState3 (ticksFrom 3 vols)).isRecording = true) ∧
      (vols.length = RECORDING_TIMEOUT →
        (vadRun recState3 (ticksFrom 3 vols)).endEvents =
          [VadEvent.utteranceEnd (2 + RECORDING_TIMEOUT) EndReason.timeout] ∧
        (vadRun recState3 (ticksFrom 3 vols)).consecutiveSilenceFrames = 0) := by
  intro vols hall
  constructor
  · intro hlt
    rw [recState3_eq]
    rw [vadRun_voice_recording vols 3 _ (2 + RECORDING_TIMEOUT) hall rfl rfl rfl
      (by norm_num) (by simp only [RECORDING_TIMEOUT] at hlt ⊢; omega)]
    exact ⟨by simp [VadState.endEvents, isEndEvent], rfl⟩
  · intro hlen
    rcases List.eq_nil_or_concat vols with hnil | ⟨ys, y, hys⟩
    · rw [hnil] at hlen
      simp [RECORDING_TIMEOUT] at hlen
    · subst hys
      simp only [List.concat_eq_append] at hall hlen ⊢
      simp only [List.length_append, List.length_singleton] at hlen
      rw [recState3_eq, ticksFrom_append, vadRun_append]
      rw [vadRun_voice_recording ys 3 _ (2 + RECORDING_TIMEOUT)
        (fun w hw => hall w (by simp [hw])) rfl rfl rfl (by norm_num)
        (by simp only [RECORDING_TIMEOUT] at hlen ⊢; omega)]
      have hT : 3 + ys.length = 2 + RECORDING_TIMEOUT := by
        simp only [RECORDING_TIMEOUT] at hlen ⊢
        omega
      rw [hT]
      have hsingle : ticksFrom (2 + RECORDING_TIMEOUT) [y] = [(2 + RECORDING_TIMEOUT, y)] := by
        simp [ticksFrom]
      rw [hsingle, vadRun_cons, vadRun_nil]
      rw [vadStep_voice_timeout _ _ y (2 + RECORDING_TIMEOUT) (hall y (by simp)) rfl rfl
        rfl (Nat.le_refl _) (by simp only [RECORDING_TIMEOUT] at hlen ⊢; omega)]
      exact ⟨by simp [VadState.endEvents, isEndEvent], rfl⟩

/-- C3 (amended): the recording timer exists and forcibly ends a
sustained-voice utterance via utterance-end at the first tick past the
timeout boundary, regardless of the silence count (which is zero
throughout) — but the default is RECORDING_TIMEOUT = 10000ms, not
30000ms: an utterance shorter than the timeout keeps recording, one
reaching it is force-stopped at tick 2 + RECORDING_TIMEOUT. -/
theorem C3_forced_timeout_amended :
    RECORDING_TIMEOUT = 10000 ∧
    ∀ vols : List ℚ, (∀ v ∈ vols, VOICE_DETECTION_THRESHOLD < v) →
      (vols.length < RECORDING_TIMEOUT →
        (vadRun recState3 (ticksFrom 3 vols)).endEvents = [] ∧
        (vadRun recState3 (ticksFrom 3 vols)).isRecording = true) ∧
      (vols.length = RECORDING_TIMEOUT →
        (vadRun recState3 (ticksFrom 3 vols)).endEvents =
          [VadEvent.utteranceEnd (2 + RECORDING_TIMEOUT) EndReason.timeout] ∧
        (vadRun recState3 (ticksFrom 3 vols)).consecutiveSilenceFrames = 0) :=
  ⟨rfl, sustainedVoice_scenario⟩

/-- C3 counterexample: a sustained-voice utterance of 10000 ticks — far
below the claimed 30000ms default — is already force-terminated by the
recording timer at tick 10002 (10000ms after recording started at tick
2), refuting the 30000ms default. -/
theorem C3_thirty_seconds_counterexample :
    RECORDING_TIMEOUT = 10000 ∧ (10000 : ℕ) < 30000 ∧
    (vadRun recState3 (ticksFrom 3 (List.replicate 10000 (1 : ℚ)))).endEvents =
      [VadEvent.utteranceEnd 10002 EndReason.timeout] := by
  refine ⟨rfl, by norm_num, ?_⟩
  have hall : ∀ v ∈ List.replicate 10000 (1 : ℚ), VOICE_DETECTION_THRESHOLD < v := by
    intro v hv
    rw [List.eq_of_mem_replicate hv]
    norm_num [VOICE_DETECTION_THRESHOLD]
  have h := (sustainedVoice_scenario _ hall).2 (by rw [List.length_replicate]; rfl)
  exact h.1

/-- C3 witness: a 9999-tick sustained-voice utterance is still
recording with no utterance-end. -/
theorem C3_witness :
    (vadRun recState3 (ticksFrom 3 (List.replicate 9999 (1 : ℚ)))).isRecording = true ∧
    (vadRun recState3 (ticksFrom 3 (List.replicate 9999 (1 : ℚ)))).endEvents = [] := by
  have hall : ∀ v ∈ List.replicate 9999 (1 : ℚ), VOICE_DETECTION_THRESHOLD < v := by
    intro v hv
    rw [List.eq_of_mem_replicate hv]
    norm_num [VOICE_DETECTION_THRESHOLD]
  have h := (C3_forced_timeout_amended.2 _ hall).1
    (by rw [List.length_replicate]; norm_num [RECORDING_TIMEOUT])
  exact ⟨h.2, h.1⟩

lemma silenceFromRec3_run :
    ∀ (v : ℚ) (vs : List ℚ), ¬VOICE_DETECTION_THRESHOLD < v →
      (∀ w ∈ vs, ¬VOICE_DETECTION_THRESHOLD < w) →
      vs.length + 1 < SILENCE_CONFIRM_FRAMES →
      vadRun recState3 (ticksFrom 3 (v :: vs)) =
        { consecutiveVoiceFrames := 0
          consecutiveSilenceFrames := vs.length + 1
          isRecording := true
          isProcessing := false
          voiceStartTime := some 0
          recordingDeadline := some (2 + RECORDING_TIMEOUT)
          events := [VadEvent.utteranceStart 2] } := by
  intro v vs hv hall hlen
  rw [recState3_eq, ticksFrom, vadRun_cons]
  rw [vadStep_silence_recording _ 3 v (2 + RECORDING_TIMEOUT) hv rfl rfl
    (by simp [RECORDING_TIMEOUT])
    (by simp only [SILENCE_CONFIRM_FRAMES_eq] at hlen ⊢; omega)]
  rw [vadRun_silence_recording vs (3 + VOICE_DETECTION_INTERVAL) _ (2 + RECORDING_TIMEOUT)
    hall rfl rfl rfl
    (by simp only [VOICE_DETECTION_INTERVAL, RECORDING_TIMEOUT,
      SILENCE_CONFIRM_FRAMES_eq] at hlen ⊢; omega)
    (by simp only [SILENCE_CONFIRM_FRAMES_eq] at hlen ⊢; omega)]
  simp only [VadState.mk.injEq]
  exact ⟨trivial, by omega, trivial, trivial, trivial, trivial, trivial⟩

lemma silence_scenario :
    ∀ vols : List ℚ, (∀ v ∈ vols, v ≤ VOICE_DETECTION_THRESHOLD) →
      (vols.length < SILENCE_CONFIRM_FRAMES →
        (vadRun recState3 (ticksFrom 3 vols)).endEvents = [] ∧
        (vadRun recState3 (ticksFrom 3 vols)).isRecording = true) ∧
      (vols.length = SILENCE_CONFIRM_FRAMES →
        (vadRun recState3 (ticksFrom 3 vols)).endEvents =
          [VadEvent.utteranceEnd (2 + SILENCE_CONFIRM_FRAMES) EndReason.silence]) := by
  intro vols hall
  have hall' : ∀ v ∈ vols, ¬VOICE_DETECTION_THRESHOLD < v :=
    fun v hv => not_lt.mpr (hall v hv)
  constructor
  · intro hlt
    cases vols with
    | nil =>
      rw [recState3_eq]
      exact ⟨by simp [ticksFrom, vadRun_nil, VadState.endEvents, isEndEvent], rfl⟩
    | cons v vs =>
      rw [silenceFromRec3_run v vs (hall' v (by simp))
        (fun w hw => hall' w (by simp [hw])) (by simpa using hlt)]
      exact ⟨by simp [VadState.endEvents, isEndEvent], rfl⟩
  · intro hlen
    cases vols with
    | nil => simp [SILENCE_CONFIRM_FRAMES_eq] at hlen
    | cons v vs =>
      rcases List.eq_nil_or_concat vs with hnil | ⟨ys, y, hys⟩
      · rw [hnil] at hlen
        simp [SILENCE_CONFIRM_FRAMES_eq] at hlen
      · subst hys
        simp only [List.concat_eq_append] at hall hall' hlen ⊢
        simp only [List.length_cons, List.length_append, List.length_singleton,
          List.length_nil] at hlen
        have hsplit : v :: (ys ++ [y]) = (v :: ys) ++ [y] := rfl
        rw [hsplit, ticksFrom_append, vadRun_append]
        rw [silenceFromRec3_run v ys (hall' v (by simp))
          (fun w hw => hall' w (by simp [hw]))
          (by simp only [SILENCE_CONFIRM_FRAMES_eq] at hlen ⊢; omega)]
        have hT : 3 + (v :: ys).length = 2 + SILENCE_CONFIRM_FRAMES := by
          simp only [List.length_cons, List.length_nil, SILENCE_CONFIRM_FRAMES_eq] at hlen ⊢
          omega
        rw [hT]
        have hsingle : ticksFrom (2 + SILENCE_CONFIRM_FRAMES) [y] =
            [(2 + SILENCE_CONFIRM_FRAMES, y)] := by
          simp [ticksFrom]
        rw [hsingle, vadRun_cons, vadRun_nil]
        rw [vadStep_silence_fire _ _ y (2 + RECORDING_TIMEOUT) (hall' y (by simp)) rfl rfl
          (by norm_num [RECORDING_TIMEOUT, SILENCE_CONFIRM_FRAMES_eq])
          (by simp only [List.length_nil, SILENCE_CONFIRM_FRAMES_eq] at hlen ⊢; omega)]
        simp [VadState.endEvents, isEndEvent]

/-- C5 (amended): with an active recording, utterance-end fires at
exactly the tick where the consecutive-silence count reaches
SILENCE_CONFIRM_FRAMES — derived as ceil(QUESTION_DELAY /
VOICE_DETECTION_INTERVAL) — and not earlier; the default is 1000 ticks
of 1ms, about 1000ms of silence, not about 2000ms. -/
theorem C5_silence_confirm_amended :
    SILENCE_CONFIRM_FRAMES =
      (QUESTION_DELAY + VOICE_DETECTION_INTERVAL - 1) / VOICE_DETECTION_INTERVAL ∧
    SILENCE_CONFIRM_FRAMES * VOICE_DETECTION_INTERVAL = 1000 ∧
    ∀ vols : List ℚ, (∀ v ∈ vols, v ≤ VOICE_DETECTION_THRESHOLD) →
      (vols.length < SILENCE_CONFIRM_FRAMES →
        (vadRun recState3 (ticksFrom 3 vols)).endEvents = [] ∧
        (vadRun recState3 (ticksFrom 3 vols)).isRecording = true) ∧
      (vols.length = SILENCE_CONFIRM_FRAMES →
        (vadRun recState3 (ticksFrom 3 vols)).endEvents =
          [VadEvent.utteranceEnd (2 + SILENCE_CONFIRM_FRAMES) EndReason.silence]) :=
  ⟨rfl, by simp [SILENCE_CONFIRM_FRAMES_eq, VOICE_DETECTION_INTERVAL], silence_scenario⟩

/-- C5 counterexample: the derived silence window is 1000 ticks of 1ms,
about 1000ms, not about 2000ms: a recording with exactly 1000 silent
ticks already ends at tick 1002. -/
theorem C5_two_seconds_counterexample :
    SILENCE_CONFIRM_FRAMES * VOICE_DETECTION_INTERVAL = 1000 ∧ (1000 : ℕ) < 2000 ∧
    (vadRun recState3 (ticksFrom 3 (List.replicate 1000 (0 : ℚ)))).endEvents =
      [VadEvent.utteranceEnd 1002 EndReason.silence] := by
  refine ⟨by simp [SILENCE_CONFIRM_FRAMES_eq, VOICE_DETECTION_INTERVAL], by norm_num, ?_⟩
  have hall : ∀ v ∈ List.replicate 1000 (0 : ℚ), v ≤ VOICE_DETECTION_THRESHOLD := by
    intro v hv
    rw [List.eq_of_mem_replicate hv]
    norm_num [VOICE_DETECTION_THRESHOLD]
  have h := (silence_scenario _ hall).2 (by rw [List.length_replicate, SILENCE_CONFIRM_FRAMES_eq])
  exact h

/-- C5 witness: 999 silent ticks do not end the recording; the
thousandth does. -/
theorem C5_witness :
    (vadRun recState3 (ticksFrom 3 (List.replicate 999 (0 : ℚ)))).endEvents = [] ∧
    (vadRun recState3 (ticksFrom 3 (List.replicate 1000 (0 : ℚ)))).endEvents =
      [VadEvent.utteranceEnd (2 + SILENCE_CONFIRM_FRAMES) EndReason.silence] := by
  have hall : ∀ n : ℕ, ∀ v ∈ List.replicate n (0 : ℚ), v ≤ VOICE_DETECTION_THRESHOLD := by
    intro n v hv
    rw [List.eq_of_mem_replicate hv]
    norm_num [VOICE_DETECTION_THRESHOLD]
  exact ⟨((C5_silence_confirm_amended.2.2 _ (hall 999)).1
      (by rw [List.length_replicate, SILENCE_CONFIRM_FRAMES_eq]; norm_num)).1,
    (C5_silence_confirm_amended.2.2 _ (hall 1000)).2
      (by rw [List.length_replicate, SILENCE_CONFIRM_FRAMES_eq])⟩

end VoiceAI
